import Mathlib

/-!
Verification development for the edit-exif-image repository.

The definitions below are a shallow embedding of src/api/edit-exif.js.
That source file contains several variants of the metadata-embedding
handler; the first variant (lines 34-340 of the file) is embedded as
handler1 together with its helpers, and the second secondary-writer
variant (lines 781-817) is embedded as secondary3.

Modelling conventions:
- JavaScript numbers are modelled as exact rationals; a value whose
  parseFloat result is NaN is modelled as Option.none inside JNum.
- JavaScript strings that the code inspects character by character are
  modelled as lists of characters (Str); strings used only as opaque
  keys or messages are Lean strings.
- External library calls (fetch, piexif.load, piexif.dump and
  piexif.insert, the ExifTool process, the file system) are modelled by
  oracle fields of environment structures, so the theorems quantify over
  every possible behaviour of those collaborators.
- JavaScript try/catch blocks are translated structurally: a caught
  exception becomes a branch of the function, an uncaught one becomes an
  error value of an Except type.
-/

namespace EditExif

/-- JavaScript strings inspected character by character. -/
abbrev Str := List Char

/-- A JavaScript number after parseFloat: either a rational or NaN. -/
abbrev JNum := Option ℚ

/-- Whitespace characters removed by the trim calls in the source. -/
def isSpaceChar (c : Char) : Bool :=
  c = ' ' || c = '\t' || c = '\n' || c = '\r'

/-- Drop leading whitespace from a character list. -/
def dropLeadingWs : Str → Str
  | [] => []
  | c :: rest => if isSpaceChar c then dropLeadingWs rest else c :: rest

/-- Model of the String.prototype.trim calls in the source. -/
def jsTrim (s : Str) : Str :=
  (dropLeadingWs (dropLeadingWs s).reverse).reverse

/-- Model of the split on a comma used by the source: splitting the empty
string yields one empty chunk, matching the JavaScript behaviour. -/
def splitComma : Str → List Str
  | [] => [[]]
  | c :: rest =>
    if c = ',' then [] :: splitComma rest
    else
      match splitComma rest with
      | s :: ss => (c :: s) :: ss
      | [] => [[c]]

/-- Model of Array.prototype.join with the separator comma and space. -/
def joinComma : List Str → Str
  | [] => []
  | [a] => a
  | a :: b :: rest => a ++ (',' :: ' ' :: joinComma (b :: rest))

/-- The map trim and filter nonempty combination applied to keyword
entries throughout the source. -/
def normalizeKw (l : List Str) : List Str :=
  (l.map jsTrim).filter (fun k => k ≠ [])

/-- keywords.split(",").map(trim).filter(nonempty) from the source. -/
def splitKw (s : Str) : List Str :=
  normalizeKw (splitComma s)

/-- A keywords request field: a comma separated string or a list. -/
inductive KeywordsVal where
  | str (s : Str)
  | arr (l : List Str)
deriving DecidableEq, Repr

/-- The legacy exifData request bag (fields the first handler variant
reads), plus the names of any further keys, so that the
Object.keys(exifData).length test can be modelled. -/
structure ExifData where
  description : Option Str := none
  keywords : Option KeywordsVal := none
  latitude : Option JNum := none
  longitude : Option JNum := none
  altitude : Option JNum := none
  otherKeys : List String := []
deriving Repr

/-- Object.keys(exifData).length > 0 from line 62 of the source. -/
def ExifData.hasKeys (e : ExifData) : Bool :=
  e.description.isSome || e.keywords.isSome || e.latitude.isSome ||
  e.longitude.isSome || e.altitude.isSome || !e.otherKeys.isEmpty

/-- The request body destructured at line 53 of the source. -/
structure Request where
  imageUrl : Option Str := none
  imageData : Option Str := none
  title : Option Str := none
  description : Option Str := none
  keywords : Option KeywordsVal := none
  city : Option Str := none
  country : Option Str := none
  latitude : Option JNum := none
  longitude : Option JNum := none
  altitude : Option JNum := none
  exifData : Option ExifData := none
deriving Repr

/-- JavaScript truthiness of an optional string field: present and
nonempty. -/
def truthy : Option Str → Bool
  | none => false
  | some s => !s.isEmpty

/-- The keywords part of the hasNewFormat test at line 61:
keywords && keywords.length > 0. An empty array is truthy in
JavaScript but has length 0, an empty string is already falsy. -/
def kwNonempty : Option KeywordsVal → Bool
  | none => false
  | some (.str s) => !s.isEmpty
  | some (.arr l) => !l.isEmpty

/-- JavaScript truthiness of the keywords field alone, used by the
legacy branch test exifData.keywords && !keywords at line 173. -/
def kwTruthy : Option KeywordsVal → Bool
  | none => false
  | some (.str s) => !s.isEmpty
  | some (.arr _) => true

/-- hasNewFormat from line 61 of the source. -/
def hasNewFormat (r : Request) : Bool :=
  truthy r.title || truthy r.description || kwNonempty r.keywords ||
  truthy r.city || truthy r.country || r.latitude.isSome || r.longitude.isSome

/-- hasLegacyFormat from line 62 of the source. -/
def hasLegacyFormat (r : Request) : Bool :=
  match r.exifData with
  | some e => e.hasKeys
  | none => false

/-- convertDDToDMS from lines 13-28 of the source, over exact
rationals. Math.floor is the integer floor and Math.round is
floor of the argument plus one half, which is the round function of
Mathlib. Returns the triple of rationals encoded as numerator and
denominator pairs flattened into a four-tuple, plus the reference
character. -/
def convertDDToDMS (dd : ℚ) (isLat : Bool) : (ℤ × ℤ × ℤ × ℤ) × Char :=
  let abs := |dd|
  let deg := ⌊abs⌋
  let minFloat := (abs - deg) * 60
  let min := ⌊minFloat⌋
  let sec := (minFloat - min) * 60
  let ref := if isLat then (if dd ≥ 0 then 'N' else 'S')
             else (if dd ≥ 0 then 'E' else 'W')
  let secNumerator := round (sec * 10000)
  ((deg, min, secNumerator, 10000), ref)

/-- convertDMSToDD from lines 258-264 of src/app.js, the repository's
decoder from the DMS triple back to decimal degrees, over exact
rationals: dd equals the first entry plus the second over sixty plus
the third over sixty times sixty, multiplied by minus one when the
reference is S or W. The three entries are the degrees, minutes and
seconds values; a seconds rational stored as numerator over denominator
arrives here already divided, as when the reader returns the GPS tags
as plain numbers. -/
def convertDMSToDD (d0 d1 d2 : ℚ) (ref : Char) : ℚ :=
  let dd := d0 + d1 / 60 + d2 / (60 * 60)
  if ref = 'S' ∨ ref = 'W' then dd * -1 else dd

/-- Decode a coordinate produced by convertDDToDMS back to decimal
degrees with convertDMSToDD, feeding the stored seconds rational as
its quotient. -/
def ddRoundTrip (isLat : Bool) (x : ℚ) : ℚ :=
  let res := convertDDToDMS x isLat
  convertDMSToDD (res.1.1 : ℚ) (res.1.2.1 : ℚ)
    ((res.1.2.2.1 : ℚ) / (res.1.2.2.2 : ℚ)) res.2

/-- A value stored in an EXIF image file directory entry. -/
inductive TagVal where
  | txt (s : Str)
  | rat (num den : ℤ)
  | ratList (l : List (ℤ × ℤ))
  | intVal (n : ℤ)
deriving DecidableEq, Repr

/-- An EXIF image file directory: tag number to value, first write
wins the position, later writes overwrite in place. -/
abbrev IFD := List (Nat × TagVal)

/-- Assignment into a JavaScript object keyed by tag number. -/
def IFD.set : IFD → Nat → TagVal → IFD
  | [], k, v => [(k, v)]
  | (k', v') :: rest, k, v =>
    if k' = k then (k, v) :: rest else (k', v') :: IFD.set rest k v

/-- Lookup of a tag number in an image file directory. -/
def IFD.lookup : IFD → Nat → Option TagVal
  | [], _ => none
  | (k', v) :: rest, k => if k' = k then some v else IFD.lookup rest k

/-- piexif GPS tag numbers used by the source. -/
def GPSLatitudeRef : Nat := 1

def GPSLatitude : Nat := 2

def GPSLongitudeRef : Nat := 3

def GPSLongitude : Nat := 4

def GPSAltitudeRef : Nat := 5

def GPSAltitude : Nat := 6

/-- The piexif container loaded at line 194 of the source: the five
sub-sections and the thumbnail. -/
structure Container where
  zeroth : IFD
  exifSec : IFD
  gps : IFD
  interop : IFD
  firstIFD : IFD
  thumbnail : Option (List Nat)
deriving DecidableEq, Repr

/-- The structurally complete empty container built at line 198 when
piexif.load fails. -/
def freshContainer : Container := ⟨[], [], [], [], [], none⟩

/-- The piexif value for one coordinate: degrees over one, minutes over
one, seconds numerator over the seconds denominator. -/
def ratListOfDMS (d : ℤ × ℤ × ℤ × ℤ) : TagVal :=
  .ratList [(d.1, 1), (d.2.1, 1), (d.2.2.1, d.2.2.2)]

/-- Lines 203-213 of the source: choose the GPS candidate values,
preferring the structured shape and falling back to the legacy bag only
when the structured shape supplied neither coordinate and the legacy bag
supplies both. -/
def determineGPS (r : Request) : Option JNum × Option JNum × Option JNum :=
  if hasNewFormat r && (r.latitude.isSome || r.longitude.isSome) then
    (r.latitude, r.longitude, r.altitude)
  else
    match r.exifData with
    | some e =>
      if hasLegacyFormat r && (e.latitude.isSome && e.longitude.isSome) then
        (e.latitude, e.longitude, e.altitude)
      else (none, none, none)
    | none => (none, none, none)

/-- Lines 216-232 of the source: write the GPS tags into the GPS
sub-section when both coordinates are defined, numeric and in range,
otherwise leave the sub-section exactly as it was. -/
def gpsStep (r : Request) (gps0 : IFD) : IFD :=
  match determineGPS r with
  | (some (some la), some (some lo), alt) =>
    if -90 ≤ la ∧ la ≤ 90 ∧ -180 ≤ lo ∧ lo ≤ 180 then
      let latR := convertDDToDMS la true
      let lonR := convertDDToDMS lo false
      let g1 := ((((gps0.set GPSLatitude (ratListOfDMS latR.1)).set
        GPSLatitudeRef (.txt [latR.2])).set
        GPSLongitude (ratListOfDMS lonR.1)).set
        GPSLongitudeRef (.txt [lonR.2]))
      match alt with
      | some (some a) =>
        (g1.set GPSAltitude (.rat (round (|a| * 100)) 100)).set
          GPSAltitudeRef (.intVal (if 0 ≤ a then 0 else 1))
      | _ => g1
    else gps0
  | _ => gps0

/-- The predicate the claim states for the GPS write: both coordinates
chosen, numeric, and inside the latitude and longitude ranges. -/
def gpsWriteCond (r : Request) : Bool :=
  match determineGPS r with
  | (some (some la), some (some lo), _) =>
    decide (-90 ≤ la ∧ la ≤ 90 ∧ -180 ≤ lo ∧ lo ≤ 180)
  | _ => false

/-- The condition of the claim, following its words: both the chosen
latitude and the chosen longitude are present, numeric, and inside the
latitude and longitude ranges. -/
def specGpsValid : Option JNum × Option JNum × Option JNum → Prop
  | (some (some la), some (some lo), _) =>
    -90 ≤ la ∧ la ≤ 90 ∧ -180 ≤ lo ∧ lo ≤ 180
  | _ => False

/-- A value in the ExifTool tag mapping. -/
inductive TagText where
  | txt (s : Str)
  | lst (l : List Str)
deriving DecidableEq, Repr

/-- The exifToolTags object built by the handler. -/
abbrev TMap := List (String × TagText)

/-- The message of the ReferenceError raised when the first handler
variant assigns to exifObj at lines 98-185, before the let declaration
of exifObj at line 192. -/
def tdzMsg : String := "ReferenceError: exifObj accessed before initialization"

/-- Lines 117-129 of the source: the joined keyword string and the
normalized keyword list destined for the XMP and IPTC subject tags.
For a string input the list is recomputed by splitting the joined
string again, exactly as the source does. -/
def kwStrAndTags1 : Option KeywordsVal → Str × Option (List Str)
  | some (.arr l) =>
    if !l.isEmpty then (joinComma (normalizeKw l), some (normalizeKw l))
    else ([], none)
  | some (.str s) =>
    if !s.isEmpty then
      let ks := joinComma (splitKw s)
      let arr := normalizeKw (splitComma ks)
      (ks, if !arr.isEmpty then some arr else none)
    else ([], none)
  | none => ([], none)

/-- Lines 164-185 of the source: the legacy text branch. Every branch
that reaches an assignment to exifObj raises the reference error,
because exifObj is still in its temporal dead zone there. -/
def legacyStep (r : Request) (tags : TMap) (kwStr : Str) :
    Except String (TMap × Str) :=
  match r.exifData with
  | some e =>
    if e.hasKeys then
      if truthy e.description && !truthy r.description then .error tdzMsg
      else if kwTruthy e.keywords && !kwTruthy r.keywords then
        let kw := match e.keywords with
          | some (.str s) => joinComma (splitKw s)
          | some (.arr l) => joinComma (normalizeKw l)
          | none => []
        if kw ≠ [] then .error tdzMsg else .ok (tags, kwStr)
      else .ok (tags, kwStr)
    else .ok (tags, kwStr)
  | none => .ok (tags, kwStr)

/-- Lines 93-185 of the source: the text metadata section of the first
handler variant. Each assignment to exifObj in this region executes
before the let declaration of exifObj at line 192, so reaching one
raises a ReferenceError, which the surrounding try reports as a 500
response; the assignments to exifToolTags that follow such a raise in
the source are never executed, which is why this model records subject
tags only. -/
def textStep1 (r : Request) : Except String (TMap × Str) :=
  if hasNewFormat r then
    if truthy r.title then .error tdzMsg
    else if truthy r.description then .error tdzMsg
    else
      let (kwStr, kwTags) := kwStrAndTags1 r.keywords
      let tags : TMap := match kwTags with
        | some arr => [("XMP-dc:Subject", .lst arr), ("IPTC:Keywords", .lst arr)]
        | none => []
      if kwStr ≠ [] then .error tdzMsg
      else if truthy r.city || truthy r.country then .error tdzMsg
      else legacyStep r tags kwStr
  else legacyStep r [] []

/-- The behaviour of the external collaborators of one request: the
fetch response body when it is ok, the bytes produced by decoding the
base64 payload, the piexif.load result when parsing succeeds, and the
composition of piexif.dump and piexif.insert. -/
structure Env where
  fetchResult : Option (List Nat)
  decodeBytes : List Nat
  loadResult : Option Container
  dumpInsert : Container → List Nat → List Nat

/-- Lines 68-81 of the source: obtain the image bytes from the url or
the inline base64 payload; a non-ok fetch response is a 400 error. -/
def resolveImage (r : Request) (env : Env) : Except String (List Nat) :=
  if truthy r.imageUrl then
    match env.fetchResult with
    | some b => .ok b
    | none => .error "Failed to fetch image"
  else if truthy r.imageData then .ok env.decodeBytes
  else .error "no image source"

/-- The behaviour of the file system and the ExifTool process during one
secondary-writer invocation. fsModuleOk models the outer try of the
first variant around the module loading and path construction;
writeFileOk covers writeFileSync and statSync; exifWriteOk covers the
ExifTool constructor and write call; the remaining flags cover the end
call, the read back, and the unlink. -/
structure SecEnv where
  now : ℕ
  rand : Str
  fsModuleOk : Bool
  writeFileOk : Bool
  exifWriteOk : Bool
  exifEndOk : Bool
  readFileOk : Bool
  readBytes : List Nat
  unlinkOk : Bool

/-- The temp file path built at line 263 of the source from the
timestamp and the random draw. -/
def tempName1 (t : ℕ) (r : Str) : Str :=
  "/tmp/exif-input-".toList ++ (toString t).toList ++ ('-' :: r) ++ ".jpg".toList

/-- The temp file path built at line 790 of the source from the
timestamp alone. -/
def tempName3 (e : SecEnv) : Str :=
  "/tmp/exif-input-".toList ++ (toString e.now).toList ++ ".jpg".toList

/-- Create a file: membership in the list of existing temp paths. -/
def addFile (fs : List Str) (p : Str) : List Str :=
  if p ∈ fs then fs else fs ++ [p]

/-- Unlink a file. -/
def removeFile (fs : List Str) (p : Str) : List Str :=
  fs.filter (fun q => q ≠ p)

/-- Lines 257-320 of the source: the secondary writer of the first
handler variant, returning the final buffer and the set of temp files
that exist afterwards. Every failure is caught: the outer catch covers
the module loading, the inner catch covers every step after the temp
path exists and attempts the unlink guarded by existsSync, and both
catches fall back to the buffer that was passed in. -/
def secondary1 (e : SecEnv) (buf : List Nat) (fs0 : List Str) :
    List Nat × List Str :=
  if !e.fsModuleOk then (buf, fs0)
  else
    let p := tempName1 e.now e.rand
    if !e.writeFileOk then (buf, fs0)
    else
      let fs1 := addFile fs0 p
      if !e.exifWriteOk || !e.exifEndOk || !e.readFileOk then
        (buf, if e.unlinkOk then removeFile fs1 p else fs1)
      else
        (e.readBytes, if e.unlinkOk then removeFile fs1 p else fs1)

/-- Lines 789-816 of the source: the secondary writer of the last
handler variant. Its single catch falls back to the buffer that was
passed in but performs no cleanup, so a failure after the temp file was
written leaves the file behind; only the success path unlinks it. The
module loading and path construction there cannot raise, so no outer
failure flag applies. -/
def secondary3 (e : SecEnv) (buf : List Nat) (fs0 : List Str) :
    List Nat × List Str :=
  let p := tempName3 e
  if !e.writeFileOk then (buf, fs0)
  else
    let fs1 := addFile fs0 p
    if !e.exifWriteOk || !e.exifEndOk || !e.readFileOk then (buf, fs1)
    else (e.readBytes, if e.unlinkOk then removeFile fs1 p else fs1)

/-- The outcome of one request: the image bytes of a 200 response, the
message of a 400 response, or the message of a 500 response produced by
the outer catch. -/
inductive HRes where
  | ok (bytes : List Nat)
  | badRequest (msg : String)
  | serverError (msg : String)
deriving DecidableEq, Repr

/-- Whether the outcome is a 200 image response. -/
def HRes.isOk : HRes → Bool
  | .ok _ => true
  | _ => false

/-- Lines 50-340 of the source: the POST path of the first handler
variant. Validation, image acquisition, the JPEG signature check, the
text metadata section with its temporal dead zone assignments, the
container load with its fallback, the GPS write, serialization, and the
optional secondary writer. -/
def handler1 (r : Request) (env : Env) (e : SecEnv) : HRes :=
  if !truthy r.imageUrl && !truthy r.imageData then
    .badRequest "Either imageUrl or imageData (base64) is required"
  else if !hasNewFormat r && !hasLegacyFormat r then
    .badRequest "At least one metadata field is required"
  else
    match resolveImage r env with
    | .error m => .badRequest m
    | .ok buf =>
      if buf[0]? ≠ some 0xFF ∨ buf[1]? ≠ some 0xD8 then
        .badRequest "Only JPEG images are supported"
      else
        match textStep1 r with
        | .error m => .serverError m
        | .ok (tags, _) =>
          let exifObj := env.loadResult.getD freshContainer
          let cont := { exifObj with gps := gpsStep r exifObj.gps }
          let bytes1 := env.dumpInsert cont buf
          let final := if tags ≠ [] then (secondary1 e bytes1 []).1 else bytes1
          .ok final

/-! ### Concrete fixtures used by witnesses and counterexamples -/

/-- A four-byte buffer with the JPEG start-of-image marker. -/
def jpegBytes : List Nat := [0xFF, 0xD8, 0xFF, 0xE0]

/-- The PNG signature prefix. -/
def pngBytes : List Nat := [0x89, 0x50, 0x4E, 0x47]

/-- A collaborator environment whose fetch succeeds with the sample
JPEG bytes, whose container load finds no existing metadata, and whose
serializer is the identity on the byte stream. -/
def idEnv : Env :=
  { fetchResult := some jpegBytes, decodeBytes := jpegBytes,
    loadResult := none, dumpInsert := fun _ b => b }

/-- An environment whose image source yields the PNG signature. -/
def pngEnv : Env :=
  { fetchResult := none, decodeBytes := pngBytes,
    loadResult := none, dumpInsert := fun _ b => b }

/-- A secondary-writer environment where every step succeeds. -/
def se0 : SecEnv :=
  { now := 5, rand := ['a', 'b'], fsModuleOk := true, writeFileOk := true,
    exifWriteOk := true, exifEndOk := true, readFileOk := true,
    readBytes := [1, 2, 3], unlinkOk := true }

/-- A secondary-writer environment where the ExifTool write fails. -/
def seFail : SecEnv := { se0 with exifWriteOk := false }

/-- The end-to-end example request of the spec. -/
def c1Req : Request :=
  { imageUrl := some "https://x/y.jpg".toList,
    description := some "My edited image".toList,
    latitude := some (some (407128 / 10000)),
    longitude := some (some (-740060 / 10000)) }

/-- A request with an out-of-range latitude. -/
def c5Req : Request :=
  { imageData := some "AAAA".toList,
    latitude := some (some 200), longitude := some (some 10) }

/-- A GPS sub-section holding one pre-existing tag. -/
def c5Gps : IFD := [(GPSLatitude, TagVal.intVal 7)]

/-- A request whose image source decodes to the PNG signature. -/
def c6Req : Request :=
  { imageData := some "AAAA".toList, description := some "x".toList }

/-- A request supplying only an image source. -/
def c7Req : Request := { imageUrl := some "https://x/y.jpg".toList }

/-- The keyword-normalization example string of the spec. -/
def kwExample : Str := "nature, landscape,  photography ".toList

/-- A request supplying an image source and the example keywords. -/
def c8Req : Request :=
  { imageData := some "AAAA".toList, keywords := some (.str kwExample) }

/-- A request supplying an image source and a latitude only. -/
def c10Req : Request :=
  { imageUrl := some "https://x/y.jpg".toList,
    latitude := some (some (407128 / 10000)) }

/-! ### Claim C3: the decimal to DMS contract -/

/-- Claim C3: for every finite decimal-degree value and either axis,
convertDDToDMS returns degrees equal to the floor of the absolute
value, minutes equal to the floor of the fractional part times sixty,
a seconds numerator equal to the rounding of the seconds value times
ten thousand over the fixed denominator ten thousand, and the reference
character N or S for latitude and E or W for longitude chosen by the
sign of the input. -/
theorem convertDDToDMS_contract (v : ℚ) (isLat : Bool) :
    convertDDToDMS v isLat =
      ((⌊|v|⌋, ⌊(|v| - ⌊|v|⌋) * 60⌋,
        round ((((|v| - ⌊|v|⌋) * 60 - ⌊(|v| - ⌊|v|⌋) * 60⌋) * 60) * 10000),
        10000),
       if isLat then (if v ≥ 0 then 'N' else 'S')
       else (if v ≥ 0 then 'E' else 'W')) := rfl

/-! ### Claim C4: the GPS round-trip bound -/

/-- Reconstructing from the rounded seconds numerator moves the decoded
value by at most half an entry of the fixed denominator grid, divided by
three thousand six hundred. -/
theorem recon_close (a : ℚ) :
    |((⌊a⌋ : ℚ) + (⌊(a - ⌊a⌋) * 60⌋ : ℚ) / 60 +
      (((round ((((a - ⌊a⌋) * 60 - ⌊(a - ⌊a⌋) * 60⌋) * 60) * 10000) : ℤ) : ℚ)
        / 10000) / 3600) - a| ≤ 1 / 72000000 := by
  have key : ((⌊a⌋ : ℚ) + (⌊(a - ⌊a⌋) * 60⌋ : ℚ) / 60 +
      (((round ((((a - ⌊a⌋) * 60 - ⌊(a - ⌊a⌋) * 60⌋) * 60) * 10000) : ℤ) : ℚ)
        / 10000) / 3600) - a =
      (((round ((((a - ⌊a⌋) * 60 - ⌊(a - ⌊a⌋) * 60⌋) * 60) * 10000) : ℤ) : ℚ) -
        (((a - ⌊a⌋) * 60 - ⌊(a - ⌊a⌋) * 60⌋) * 60) * 10000) / 36000000 := by
    ring
  rw [key, abs_div, abs_of_nonneg (by norm_num : (0 : ℚ) ≤ 36000000)]
  have h := abs_sub_round ((((a - ⌊a⌋) * 60 - ⌊(a - ⌊a⌋) * 60⌋) * 60) * 10000)
  rw [abs_sub_comm] at h
  have h36 : (0 : ℚ) < 36000000 := by norm_num
  exact le_trans ((div_le_div_iff_of_pos_right h36).mpr h) (by norm_num)

/-- The decoder of the source written with a single division by three
thousand six hundred and a leading negation. -/
theorem convertDMSToDD_eq (d0 d1 d2 : ℚ) (ref : Char) :
    convertDMSToDD d0 d1 d2 ref =
      if ref = 'S' ∨ ref = 'W' then -(d0 + d1 / 60 + d2 / 3600)
      else d0 + d1 / 60 + d2 / 3600 := by
  unfold convertDMSToDD
  split <;> ring

/-- Decoding the DMS encoding produced by convertDDToDMS recovers the
input to within the grid bound, for either axis and every rational. -/
theorem ddRoundTrip_close (isLat : Bool) (x : ℚ) :
    |ddRoundTrip isLat x - x| ≤ 1 / 72000000 := by
  rcases le_or_lt 0 x with hx | hx
  · have hax : |x| = x := abs_of_nonneg hx
    cases isLat <;>
      simp only [ddRoundTrip, convertDDToDMS, convertDMSToDD_eq, hax,
        if_pos (show x ≥ 0 from hx)] <;>
      rw [if_neg (by decide)] <;>
      · have := recon_close x
        push_cast at this ⊢
        convert this using 2
  · have hax : |x| = -x := abs_of_neg hx
    have hneg : ¬ x ≥ 0 := not_le.mpr hx
    cases isLat <;>
      simp only [ddRoundTrip, convertDDToDMS, convertDMSToDD_eq, hax,
        if_neg hneg] <;>
      rw [if_pos (by decide)] <;>
      · have := recon_close (-x)
        push_cast at this ⊢
        rw [show ∀ y : ℚ, -y - x = -(y - -x) from fun y => by ring, abs_neg]
        convert this using 2

/-- Claim C4: for latitude in range and longitude in range, decoding
the DMS encoding produced by convertDDToDMS returns a value within
four hundred-thousandths of a degree of the input. -/
theorem gps_roundtrip_bound (x : ℚ) :
    ((-90 ≤ x ∧ x ≤ 90) → |ddRoundTrip true x - x| ≤ 4 / 100000)
    ∧ ((-180 ≤ x ∧ x ≤ 180) → |ddRoundTrip false x - x| ≤ 4 / 100000) :=
  ⟨fun _ => le_trans (ddRoundTrip_close true x) (by norm_num),
   fun _ => le_trans (ddRoundTrip_close false x) (by norm_num)⟩

/-- Witness for claim C4 at the latitude of the end-to-end example. -/
theorem gps_roundtrip_bound_witness :
    (-90 ≤ (407128 / 10000 : ℚ) ∧ (407128 / 10000 : ℚ) ≤ 90)
    ∧ |ddRoundTrip true (407128 / 10000) - 407128 / 10000| ≤ 4 / 100000 :=
  ⟨by norm_num, (gps_roundtrip_bound (407128 / 10000)).1 (by norm_num)⟩

/-! ### Claim C5: GPS write gating and atomicity -/

/-- Assigning a tag makes it present under lookup. -/
theorem IFD.lookup_set_self (ifd : IFD) (k : Nat) (v : TagVal) :
    (ifd.set k v).lookup k = some v := by
  induction ifd with
  | nil => simp [IFD.set, IFD.lookup]
  | cons hd t ih =>
    obtain ⟨k', v'⟩ := hd
    by_cases hk : k' = k <;> simp [IFD.set, IFD.lookup, hk, ih]

/-- Assigning one tag leaves the lookup of a different tag unchanged. -/
theorem IFD.lookup_set_ne (ifd : IFD) (k k' : Nat) (v : TagVal)
    (h : k' ≠ k) : (ifd.set k' v).lookup k = ifd.lookup k := by
  have h2 : ¬ (k = k') := fun e => h e.symm
  induction ifd with
  | nil => simp [IFD.set, IFD.lookup, h]
  | cons hd t ih =>
    obtain ⟨k'', v''⟩ := hd
    by_cases hk : k'' = k' <;> by_cases hk2 : k'' = k <;>
      simp [IFD.set, IFD.lookup, hk, hk2, h, h2, ih]

/-- Claim C5: the GPS step writes into the GPS sub-section only when
the chosen latitude and longitude are both defined, numeric and in
range; in every other case the loaded GPS sub-section is returned
exactly as it was, and when a write does happen all four latitude and
longitude tags are present afterwards, so no half-populated GPS block
is ever produced by the step. The write condition is exactly the
existence of two chosen in-range numeric coordinates. -/
theorem gps_gating (r : Request) (gps0 : IFD) :
    (gpsWriteCond r = false → gpsStep r gps0 = gps0)
    ∧ (gpsWriteCond r = true →
        (((gpsStep r gps0).lookup GPSLatitude).isSome = true ∧
         ((gpsStep r gps0).lookup GPSLatitudeRef).isSome = true ∧
         ((gpsStep r gps0).lookup GPSLongitude).isSome = true ∧
         ((gpsStep r gps0).lookup GPSLongitudeRef).isSome = true))
    ∧ (gpsWriteCond r = true ↔ specGpsValid (determineGPS r)) := by
  rcases hD : determineGPS r with ⟨olat, olon, oalt⟩
  rcases olat with _ | (_ | la) <;> rcases olon with _ | (_ | lo) <;>
    simp only [gpsStep, gpsWriteCond, specGpsValid, hD] <;>
    try exact ⟨fun _ => trivial, fun hc => absurd hc (by decide), by simp⟩
  by_cases hR : (-90 ≤ la ∧ la ≤ 90 ∧ -180 ≤ lo ∧ lo ≤ 180)
  · refine ⟨fun hc => ?_, fun _ => ?_, ?_⟩
    · rw [decide_eq_true hR] at hc
      cases hc
    · rw [if_pos hR]
      rcases oalt with _ | (_ | a) <;>
        simp [IFD.lookup_set_self, IFD.lookup_set_ne, GPSLatitude,
          GPSLatitudeRef, GPSLongitude, GPSLongitudeRef, GPSAltitude,
          GPSAltitudeRef]
    · simp [decide_eq_true_eq]
  · refine ⟨fun _ => if_neg hR, fun hc => ?_, ?_⟩
    · rw [decide_eq_false hR] at hc
      cases hc
    · simp [decide_eq_true_eq]

/-- Witness for claim C5: a request with latitude two hundred leaves a
pre-existing GPS sub-section untouched. -/
theorem gps_gating_witness :
    gpsWriteCond c5Req = false ∧ gpsStep c5Req c5Gps = c5Gps :=
  ⟨by decide, (gps_gating c5Req c5Gps).1 (by decide)⟩

/-! ### Claim C2: secondary-writer failures degrade to EXIF-only -/

/-- Claim C2: a failure of any step of either secondary-writer variant
is caught inside the step and the step returns the buffer produced by
the mandatory EXIF merge unchanged; moreover, at the handler level the
secondary environment can never change a success into an error response
or an error response at all, so a secondary failure is never surfaced
to the caller as an error. -/
theorem secondary_fallback (e : SecEnv) (buf : List Nat) (fs0 : List Str) :
    ((e.fsModuleOk && e.writeFileOk && e.exifWriteOk && e.exifEndOk &&
        e.readFileOk) = false → (secondary1 e buf fs0).1 = buf)
    ∧ ((e.writeFileOk && e.exifWriteOk && e.exifEndOk && e.readFileOk) = false →
        (secondary3 e buf fs0).1 = buf)
    ∧ (∀ (r : Request) (env : Env) (e2 : SecEnv),
        (handler1 r env e).isOk = (handler1 r env e2).isOk
        ∧ ((handler1 r env e).isOk = false →
            handler1 r env e = handler1 r env e2)) := by
  refine ⟨?_, ?_, ?_⟩
  · intro h
    cases hf : e.fsModuleOk <;> cases hw : e.writeFileOk <;>
      cases hx : e.exifWriteOk <;> cases hn : e.exifEndOk <;>
      cases hr : e.readFileOk <;> simp_all [secondary1]
  · intro h
    cases hw : e.writeFileOk <;> cases hx : e.exifWriteOk <;>
      cases hn : e.exifEndOk <;> cases hr : e.readFileOk <;>
      simp_all [secondary3]
  · intro r env e2
    by_cases h1 : (!truthy r.imageUrl && !truthy r.imageData) = true
    · simp [handler1, h1, HRes.isOk]
    · by_cases h2 : (!hasNewFormat r && !hasLegacyFormat r) = true
      · simp [handler1, h1, h2, HRes.isOk]
      · cases hres : resolveImage r env with
        | error m => simp [handler1, h1, h2, hres, HRes.isOk]
        | ok buf2 =>
          by_cases h4 : (buf2[0]? ≠ some 0xFF ∨ buf2[1]? ≠ some 0xD8)
          · simp [handler1, h1, h2, hres, h4, HRes.isOk]
          · cases htxt : textStep1 r with
            | error m => simp [handler1, h1, h2, hres, h4, htxt, HRes.isOk]
            | ok pr =>
              obtain ⟨tags, kw⟩ := pr
              simp [handler1, h1, h2, hres, h4, htxt, HRes.isOk]

/-- Witness for claim C2: with the ExifTool write failing, both
secondary-writer variants hand back the merge buffer unchanged. -/
theorem secondary_fallback_witness :
    ((seFail.fsModuleOk && seFail.writeFileOk && seFail.exifWriteOk &&
        seFail.exifEndOk && seFail.readFileOk) = false)
    ∧ (secondary1 seFail jpegBytes []).1 = jpegBytes
    ∧ (secondary3 seFail jpegBytes []).1 = jpegBytes :=
  ⟨by decide, (secondary_fallback seFail jpegBytes []).1 (by decide),
   (secondary_fallback seFail jpegBytes []).2.1 (by decide)⟩

/-! ### Claim C9: transient file naming and cleanup -/

/-- Creating a path that did not exist and then removing it restores
the original file set. -/
theorem removeFile_addFile (fs : List Str) (p : Str) (h : p ∉ fs) :
    removeFile (addFile fs p) p = fs := by
  have hfs : ∀ a ∈ fs, a ≠ p := fun a ha he => h (he ▸ ha)
  simp only [addFile, if_neg h, removeFile, List.filter_append]
  rw [List.filter_eq_self.mpr (fun a ha => by simpa using hfs a ha)]
  simp

/-- Amended claim C9: the first secondary-writer variant names its
transient file from the timestamp and the random draw, so invocations
with the same timestamp and different draws use different paths, and it
removes the file on both the success and the failure path whenever the
removal operation itself works; the second variant names the file from
the timestamp alone, so two invocations with equal timestamps share the
path, and on its failure path the file is not removed at all. -/
theorem temp_file_amended :
    (∀ (e : SecEnv) (buf : List Nat) (fs0 : List Str),
      e.unlinkOk = true → tempName1 e.now e.rand ∉ fs0 →
      (secondary1 e buf fs0).2 = fs0)
    ∧ (∀ (t : ℕ) (r1 r2 : Str), r1 ≠ r2 → tempName1 t r1 ≠ tempName1 t r2)
    ∧ (∀ e e2 : SecEnv, e.now = e2.now → tempName3 e = tempName3 e2)
    ∧ (∀ (e : SecEnv) (buf : List Nat) (fs0 : List Str),
      e.writeFileOk = true → e.exifWriteOk = false → tempName3 e ∉ fs0 →
      (secondary3 e buf fs0).2 = fs0 ++ [tempName3 e]) := by
  refine ⟨?_, ?_, ?_, ?_⟩
  · intro e buf fs0 hu hmem
    cases hf : e.fsModuleOk <;> cases hw : e.writeFileOk <;>
      cases hx : e.exifWriteOk <;> cases hn : e.exifEndOk <;>
      cases hr : e.readFileOk <;>
      simp_all [secondary1, removeFile_addFile fs0 (tempName1 e.now e.rand) hmem]
  · intro t r1 r2 hne he
    apply hne
    have h1 := List.append_cancel_right he
    have h2 := List.append_cancel_left h1
    exact List.tail_eq_of_cons_eq h2
  · intro e e2 h
    simp [tempName3, h]
  · intro e buf fs0 hw hx hmem
    simp [secondary3, hw, hx, addFile, hmem]

/-- Counterexample for claim C9: a failing invocation of the second
secondary-writer variant leaves its transient file in place. -/
theorem temp_file_counterexample :
    (secondary3 seFail jpegBytes []).2 = [tempName3 seFail] := by decide

/-- Witness for the amended claim C9. -/
theorem temp_file_amended_witness :
    (se0.unlinkOk = true ∧ tempName1 se0.now se0.rand ∉ ([] : List Str)
      ∧ (secondary1 se0 jpegBytes []).2 = [])
    ∧ (seFail.writeFileOk = true ∧ seFail.exifWriteOk = false
      ∧ (secondary3 seFail jpegBytes []).2 = [] ++ [tempName3 seFail]) :=
  ⟨⟨rfl, by decide, temp_file_amended.1 se0 jpegBytes [] rfl (by decide)⟩,
   ⟨rfl, rfl, temp_file_amended.2.2.2 seFail jpegBytes [] rfl rfl (by decide)⟩⟩

/-! ### Claim C6: non-JPEG inputs are rejected before processing -/

/-- Claim C6: whatever the request, the collaborators and the secondary
environment, once the resolved image bytes fail the two-byte JPEG
start-of-image test the handler answers with the 400 unsupported-format
message; the conclusion holds for every load, serialize and secondary
behaviour, so the rejection happens before any metadata processing, and
no buffer lacking the marker is ever accepted. -/
theorem nonjpeg_rejected (r : Request) (env : Env) (e : SecEnv)
    (buf : List Nat)
    (hsrc : (truthy r.imageUrl || truthy r.imageData) = true)
    (hmeta : (hasNewFormat r || hasLegacyFormat r) = true)
    (hres : resolveImage r env = .ok buf)
    (hjpeg : ¬(buf[0]? = some 0xFF ∧ buf[1]? = some 0xD8)) :
    handler1 r env e = .badRequest "Only JPEG images are supported" := by
  have h1 : (!truthy r.imageUrl && !truthy r.imageData) = false := by
    cases hu : truthy r.imageUrl <;> cases hd : truthy r.imageData <;> simp_all
  have h2 : (!hasNewFormat r && !hasLegacyFormat r) = false := by
    cases hn : hasNewFormat r <;> cases hl : hasLegacyFormat r <;> simp_all
  have h4 : buf[0]? ≠ some 0xFF ∨ buf[1]? ≠ some 0xD8 := by
    by_contra hcon
    push_neg at hcon
    exact hjpeg ⟨hcon.1, hcon.2⟩
  simp [handler1, h1, h2, hres, h4]

/-- Witness for claim C6: a PNG-signature buffer is rejected even
though the request carries a description. -/
theorem nonjpeg_rejected_witness :
    resolveImage c6Req pngEnv = .ok pngBytes
    ∧ handler1 c6Req pngEnv se0 = .badRequest "Only JPEG images are supported" :=
  ⟨rfl, nonjpeg_rejected c6Req pngEnv se0 pngBytes (by decide) (by decide)
    rfl (by decide)⟩

/-! ### Claim C7: requests with no metadata fields are rejected early -/

/-- Claim C7: a request with an image source but, after normalization,
no structured metadata field and no non-empty legacy bag is answered
with the 400 missing-metadata message, for every collaborator
environment, in particular for environments whose fetch would fail, so
no image bytes are fetched, decoded or touched. -/
theorem empty_request_rejected (r : Request) (env : Env) (e : SecEnv)
    (hsrc : (truthy r.imageUrl || truthy r.imageData) = true)
    (hnew : hasNewFormat r = false) (hleg : hasLegacyFormat r = false) :
    handler1 r env e = .badRequest "At least one metadata field is required" := by
  have h1 : (!truthy r.imageUrl && !truthy r.imageData) = false := by
    cases hu : truthy r.imageUrl <;> cases hd : truthy r.imageData <;> simp_all
  simp [handler1, h1, hnew, hleg]

/-- Witness for claim C7: a url-only request is rejected although the
environment has no fetch response at all. -/
theorem empty_request_rejected_witness :
    (truthy c7Req.imageUrl || truthy c7Req.imageData) = true
    ∧ hasNewFormat c7Req = false
    ∧ handler1 c7Req pngEnv se0 =
        .badRequest "At least one metadata field is required" :=
  ⟨by decide, by decide,
   empty_request_rejected c7Req pngEnv se0 (by decide) (by decide) (by decide)⟩

/-! ### Claim C10: latitude without longitude is silently dropped -/

/-- Claim C10: a request with an image source and a latitude only
passes validation, and the handler answers with the serialization of
exactly the loaded container: the GPS write is skipped, no tag is added
or changed, and the secondary writer is not invoked. -/
theorem lat_only_silent (u : Str) (la : JNum) (env : Env) (e : SecEnv)
    (bs : List Nat) (hu : u ≠ [])
    (hfetch : env.fetchResult = some bs)
    (hj0 : bs[0]? = some 0xFF) (hj1 : bs[1]? = some 0xD8) :
    handler1 { imageUrl := some u, latitude := some la } env e =
      .ok (env.dumpInsert (env.loadResult.getD freshContainer) bs) := by
  have hut : truthy (some u) = true := by
    simp [truthy, List.isEmpty_eq_true, hu]
  rcases hC : env.loadResult.getD freshContainer with ⟨z, ex, g, itp, f1, th⟩
  simp [handler1, truthy, hut, hu, hasNewFormat, hasLegacyFormat,
    resolveImage, hfetch, hj0, hj1, textStep1, legacyStep, kwStrAndTags1,
    kwNonempty, gpsStep, determineGPS, hC]

/-- Witness for claim C10: the concrete latitude-only request returns
the identity serialization of the fresh container over the fetched
bytes. -/
theorem lat_only_silent_witness :
    handler1 c10Req idEnv se0 =
      .ok (idEnv.dumpInsert (idEnv.loadResult.getD freshContainer) jpegBytes) :=
  lat_only_silent "https://x/y.jpg".toList (some (407128 / 10000)) idEnv se0
    jpegBytes (by decide) rfl (by decide) (by decide)

/-! ### Claim C1: the end-to-end example hits the dead-zone bug -/

/-- Claim C1 evaluation: the end-to-end example request, with the fetch
returning valid JPEG bytes, does not produce an image at all: the
description write at line 109 of the source executes before the let
declaration of exifObj at line 192, so the handler throws a
ReferenceError and answers with a 500 error instead of the tagged
image the claim describes. -/
theorem end_to_end_tdz : handler1 c1Req idEnv se0 = .serverError tdzMsg := by
  decide

/-! ### Claim C8: keyword normalization -/

/-- Dropping leading whitespace is idempotent. -/
theorem dropLeadingWs_idem (s : Str) :
    dropLeadingWs (dropLeadingWs s) = dropLeadingWs s := by
  induction s with
  | nil => rfl
  | cons c t ih =>
    by_cases hc : isSpaceChar c = true <;> simp [dropLeadingWs, hc, ih]

/-- Dropping leading whitespace never lengthens a list. -/
theorem dropLeadingWs_length (s : Str) :
    (dropLeadingWs s).length ≤ s.length := by
  induction s with
  | nil => simp [dropLeadingWs]
  | cons c t ih =>
    by_cases hc : isSpaceChar c = true
    · simp only [dropLeadingWs, hc, if_pos, List.length_cons]
      exact le_trans ih (Nat.le_succ _)
    · simp [dropLeadingWs, hc]

/-- Dropping leading whitespace yields a suffix of the input. -/
theorem dropLeadingWs_suffix (s : Str) : dropLeadingWs s <:+ s := by
  induction s with
  | nil => exact List.suffix_refl _
  | cons c t ih =>
    by_cases hc : isSpaceChar c = true
    · simpa [dropLeadingWs, hc] using ih.trans (List.suffix_cons c t)
    · simp [dropLeadingWs, hc]

/-- A prefix of a list with no leading whitespace has no leading
whitespace either. -/
theorem dropLeadingWs_of_prefix (v u : Str) (hv : v <+: u)
    (hu : dropLeadingWs u = u) : dropLeadingWs v = v := by
  obtain ⟨k, hk⟩ := hv
  cases v with
  | nil => rfl
  | cons c t =>
    have hshape : u = c :: (t ++ k) := by rw [← hk]; simp
    by_cases hc : isSpaceChar c = true
    · exfalso
      rw [hshape] at hu
      simp only [dropLeadingWs, hc, if_pos] at hu
      have hlen := dropLeadingWs_length (t ++ k)
      rw [hu] at hlen
      simp at hlen
    · simp [dropLeadingWs, hc]

/-- The trim of the source is idempotent. -/
theorem jsTrim_idem (s : Str) : jsTrim (jsTrim s) = jsTrim s := by
  have hA : dropLeadingWs (dropLeadingWs s) = dropLeadingWs s :=
    dropLeadingWs_idem s
  have hrev : (jsTrim s).reverse = dropLeadingWs (dropLeadingWs s).reverse := by
    simp [jsTrim]
  have hpart2 : dropLeadingWs (jsTrim s).reverse = (jsTrim s).reverse := by
    rw [hrev]
    exact dropLeadingWs_idem _
  have hpref : jsTrim s <+: dropLeadingWs s := by
    have hsuf : dropLeadingWs (dropLeadingWs s).reverse <:+ (dropLeadingWs s).reverse :=
      dropLeadingWs_suffix _
    have h2 : (dropLeadingWs (dropLeadingWs s).reverse).reverse <+:
        ((dropLeadingWs s).reverse).reverse := List.reverse_prefix.mpr hsuf
    simpa [jsTrim] using h2
  have hpart1 : dropLeadingWs (jsTrim s) = jsTrim s :=
    dropLeadingWs_of_prefix _ _ hpref hA
  show (dropLeadingWs (dropLeadingWs (jsTrim s)).reverse).reverse = jsTrim s
  rw [hpart1, hpart2]
  simp

/-- Membership survives dropping leading whitespace backwards. -/
theorem mem_of_mem_dropLeadingWs (c : Char) (s : Str)
    (h : c ∈ dropLeadingWs s) : c ∈ s := by
  induction s with
  | nil => simp [dropLeadingWs] at h
  | cons d t ih =>
    by_cases hd : isSpaceChar d = true
    · simp only [dropLeadingWs, hd, if_pos] at h
      exact List.mem_cons_of_mem d (ih h)
    · simpa [dropLeadingWs, hd] using h

/-- Membership survives trimming backwards. -/
theorem mem_of_mem_jsTrim (c : Char) (s : Str) (h : c ∈ jsTrim s) : c ∈ s := by
  unfold jsTrim at h
  rw [List.mem_reverse] at h
  have h2 := mem_of_mem_dropLeadingWs c _ h
  rw [List.mem_reverse] at h2
  exact mem_of_mem_dropLeadingWs c s h2

/-- Splitting on commas never yields the empty list of chunks. -/
theorem splitComma_ne_nil (s : Str) : splitComma s ≠ [] := by
  induction s with
  | nil => simp [splitComma]
  | cons c t ih =>
    by_cases hc : c = ','
    · simp [splitComma, hc]
    · simp only [splitComma, if_neg hc]
      cases h : splitComma t with
      | nil => simp
      | cons u us => simp

/-- No chunk produced by splitting on commas contains a comma. -/
theorem splitComma_no_comma (s : Str) : ∀ e ∈ splitComma s, ',' ∉ e := by
  induction s with
  | nil =>
    intro e he
    simp [splitComma] at he
    subst he
    simp
  | cons c t ih =>
    intro e he
    by_cases hc : c = ','
    · subst hc
      simp only [splitComma, if_pos rfl] at he
      rcases List.mem_cons.mp he with he | he
      · subst he; simp
      · exact ih e he
    · simp only [splitComma, if_neg hc] at he
      cases h : splitComma t with
      | nil => exact absurd h (splitComma_ne_nil t)
      | cons u us =>
        rw [h] at he
        rcases List.mem_cons.mp he with he | he
        · subst he
          intro hmem
          rcases List.mem_cons.mp hmem with hm | hm
          · exact hc hm.symm
          · exact ih u (h ▸ List.mem_cons_self u us) hm
        · exact ih e (h ▸ List.mem_cons_of_mem u he)

/-- Splitting a comma-free list yields the single chunk itself. -/
theorem splitComma_of_no_comma (a : Str) (ha : ',' ∉ a) :
    splitComma a = [a] := by
  induction a with
  | nil => rfl
  | cons c cs ih =>
    have hc : ¬ c = ',' := fun e => ha (by rw [e]; exact List.mem_cons_self _ _)
    have hcs : ',' ∉ cs := fun hm => ha (List.mem_cons_of_mem c hm)
    simp [splitComma, hc, ih hcs]

/-- Splitting distributes over a comma-free chunk glued with a comma. -/
theorem splitComma_append (a t : Str) (ha : ',' ∉ a) :
    splitComma (a ++ ',' :: t) = a :: splitComma t := by
  induction a with
  | nil => simp [splitComma]
  | cons c cs ih =>
    have hc : ¬ c = ',' := fun e => ha (by rw [e]; exact List.mem_cons_self _ _)
    have hcs : ',' ∉ cs := fun hm => ha (List.mem_cons_of_mem c hm)
    simp [splitComma, hc, ih hcs]

/-- Trimming drops a leading space. -/
theorem jsTrim_space (s : Str) : jsTrim (' ' :: s) = jsTrim s := by
  simp [jsTrim, dropLeadingWs, isSpaceChar]

/-- Every entry produced by the keyword normalization of the source is
trimmed, nonempty and comma-free. -/
theorem splitKw_props (s : Str) :
    ∀ e ∈ splitKw s, jsTrim e = e ∧ e ≠ [] ∧ ',' ∉ e := by
  intro e he
  unfold splitKw normalizeKw at he
  have hf := List.mem_filter.mp he
  obtain ⟨x, hx, hex⟩ := List.mem_map.mp hf.1
  refine ⟨?_, ?_, ?_⟩
  · rw [← hex]
    exact jsTrim_idem x
  · simpa using hf.2
  · intro hmem
    rw [← hex] at hmem
    exact splitComma_no_comma s x hx (mem_of_mem_jsTrim ',' x hmem)

/-- Splitting the comma-and-space join of trimmed, nonempty, comma-free
entries and normalizing again recovers exactly the entries. -/
theorem normalize_join (L : List Str)
    (h : ∀ e ∈ L, jsTrim e = e ∧ e ≠ [] ∧ ',' ∉ e) :
    normalizeKw (splitComma (joinComma L)) = L := by
  induction L with
  | nil => rfl
  | cons a rest ih =>
    obtain ⟨ha1, ha2, ha3⟩ := h a (List.mem_cons_self a rest)
    cases rest with
    | nil =>
      simp [joinComma, splitComma_of_no_comma a ha3, normalizeKw, ha1, ha2]
    | cons b rest2 =>
      have ihr := ih (fun e he => h e (List.mem_cons_of_mem a he))
      obtain ⟨u, us, hj⟩ : ∃ u us, splitComma (joinComma (b :: rest2)) = u :: us := by
        cases hsp : splitComma (joinComma (b :: rest2)) with
        | nil => exact absurd hsp (splitComma_ne_nil _)
        | cons u us => exact ⟨u, us, rfl⟩
      have hjoin : joinComma (a :: b :: rest2) =
          a ++ ',' :: (' ' :: joinComma (b :: rest2)) := rfl
      have hsp2 : splitComma (' ' :: joinComma (b :: rest2)) = (' ' :: u) :: us := by
        have hspc : ¬ (' ' = ',') := by decide
        simp [splitComma, hspc, hj]
      rw [hjoin, splitComma_append a _ ha3, hsp2]
      have hnorm : normalizeKw (a :: (' ' :: u) :: us) =
          a :: normalizeKw (u :: us) := by
        simp only [normalizeKw, List.map_cons, List.filter_cons, jsTrim_space,
          ha1]
        simp [ha2]
      rw [hnorm, ← hj, ihr]

/-- Amended claim C8: for either input shape the source normalizes
keywords to the trimmed, nonempty entries in original order and pairs
them with the comma-and-space join; the example string of the spec
normalizes to its three entries; but a request carrying such keywords
and no title makes the first handler variant assign the joined string
to the primary DocumentName tag while exifObj is still in its temporal
dead zone, so the request is answered with a 500 error instead of an
image holding the primary and extended keyword tags. -/
theorem keywords_amended :
    (∀ s : Str, kwStrAndTags1 (some (.str s)) =
      (joinComma (splitKw s),
       if splitKw s = [] then none else some (splitKw s)))
    ∧ (∀ l : List Str, kwStrAndTags1 (some (.arr l)) =
      (if l = [] then [] else joinComma (normalizeKw l),
       if l = [] then none else some (normalizeKw l)))
    ∧ splitKw kwExample =
      ["nature".toList, "landscape".toList, "photography".toList]
    ∧ (∀ (r : Request) (env : Env) (e : SecEnv) (bs : List Nat),
        truthy r.imageUrl = false → truthy r.imageData = true →
        truthy r.title = false → truthy r.description = false →
        env.decodeBytes = bs → bs[0]? = some 0xFF → bs[1]? = some 0xD8 →
        (kwStrAndTags1 r.keywords).1 ≠ [] →
        handler1 r env e = .serverError tdzMsg) := by
  refine ⟨?_, ?_, by decide, ?_⟩
  · intro s
    by_cases hs : s = []
    · subst hs; rfl
    · have hrt : normalizeKw (splitComma (joinComma (splitKw s))) = splitKw s :=
        normalize_join _ (splitKw_props s)
      have hse : s.isEmpty = false := by
        cases s with
        | nil => exact absurd rfl hs
        | cons c t => rfl
      by_cases hsp : splitKw s = []
      · simp only [kwStrAndTags1, hse, hrt, hsp]
        decide
      · simp [kwStrAndTags1, hse, hrt, hsp, List.isEmpty_eq_true]
  · intro l
    by_cases hl : l = []
    · subst hl; rfl
    · have hle : l.isEmpty = false := by
        cases l with
        | nil => exact absurd rfl hl
        | cons c t => rfl
      simp [kwStrAndTags1, hle, hl]
  · intro r env e bs hiu hid hit hids hdec hb0 hb1 hkw
    have hkwt : kwNonempty r.keywords = true := by
      rcases hk : r.keywords with _ | (s | l)
      · rw [hk] at hkw
        exact absurd rfl hkw
      · rw [hk] at hkw
        by_cases hse : s.isEmpty = true
        · exact absurd (by simp [kwStrAndTags1, hse]) hkw
        · simp [kwNonempty, hse]
      · rw [hk] at hkw
        by_cases hle : l.isEmpty = true
        · exact absurd (by simp [kwStrAndTags1, hle]) hkw
        · simp [kwNonempty, hle]
    have hnf : hasNewFormat r = true := by
      simp [hasNewFormat, hkwt]
    have h1 : (!truthy r.imageUrl && !truthy r.imageData) = false := by
      simp [hid]
    have htxt : textStep1 r = .error tdzMsg := by
      rcases hp : kwStrAndTags1 r.keywords with ⟨kwStr, kwTags⟩
      have hne : kwStr ≠ [] := by
        rw [hp] at hkw
        exact hkw
      simp [textStep1, hnf, hit, hids, hp, hne]
    have hres : resolveImage r env = .ok bs := by
      simp [resolveImage, hiu, hid, hdec]
    simp [handler1, h1, hnf, hres, hb0, hb1, htxt]

/-- Counterexample for claim C8: the example keywords request of the
spec, with a valid JPEG source and no title, is answered with a 500
error, so the joined string and the keyword list are not written into
any section of the returned image as the claim states. -/
theorem keywords_counterexample :
    handler1 c8Req idEnv se0 = .serverError tdzMsg := by decide

/-- Witness for the amended claim C8. -/
theorem keywords_amended_witness :
    splitKw kwExample =
      ["nature".toList, "landscape".toList, "photography".toList]
    ∧ handler1 c8Req idEnv se0 = .serverError tdzMsg :=
  ⟨keywords_amended.2.2.1,
   keywords_amended.2.2.2 c8Req idEnv se0 jpegBytes (by decide) (by decide)
     (by decide) (by decide) rfl (by decide) (by decide) (by decide)⟩

end EditExif
